import Mathlib

/-!
Verification development for the Webose event-management client.

The definitions below are a shallow embedding of the client-side business
logic (the daily agenda alert scheduler, the questionnaire draft/save
pipeline, the supplier sign-off flow).  JavaScript strings are modelled as
Lean `String` (a list of characters), JavaScript finite numbers as `ℚ`
(float overflow to Infinity for inputs with hundreds of digits is outside
the modelled range), `null`/`undefined` as `Option`, and thrown exceptions
as `Except`.  Functions keep the names of their source counterparts.
-/

namespace Webose

/-! ### JavaScript string primitives

The source manipulates strings with `trim`, `replace(/\D/g, '')`,
`startsWith`, `slice`, `split` and template literals.  We model a string
as its character list and give structural implementations so that every
definition evaluates by kernel reduction. -/

/-- The character class `\d` of the source's regular expressions: exactly
the ASCII digits `0`-`9`. -/
def isDigitChar (c : Char) : Bool :=
  48 ≤ c.toNat && c.toNat ≤ 57

/-- `String.prototype.trim`: drop leading and trailing whitespace. -/
def jsTrim (s : String) : String :=
  String.mk (((s.data.dropWhile Char.isWhitespace).reverse.dropWhile Char.isWhitespace).reverse)

/-- `String.prototype.replace(target, repl)` with single-character string
arguments: replace only the first occurrence. -/
def replaceFirstChar (target repl : Char) : List Char → List Char
  | [] => []
  | c :: cs => if c == target then repl :: cs else c :: replaceFirstChar target repl cs

/-- `String.prototype.startsWith`. -/
def strStartsWith (s pre : String) : Bool :=
  List.isPrefixOf pre.data s.data

/-- `String.prototype.slice(1)` generalised: drop the first `n` characters. -/
def strDrop (s : String) (n : Nat) : String :=
  String.mk (s.data.drop n)

/-- The length of a string in characters (`String.prototype.length`). -/
def strLength (s : String) : Nat :=
  s.data.length

/-- The numeric value of a non-empty digit string, as computed by the
JavaScript `Number` conversion on a digits-only string. -/
def digitsToNat (cs : List Char) : Nat :=
  cs.foldl (fun a c => 10 * a + (c.toNat - 48)) 0

/-- Code-point comparison of character lists.  `localeCompare` on the
digit/colon time strings sorted by the agenda summary coincides with
code-point order. -/
def charListLe : List Char → List Char → Bool
  | [], _ => true
  | _ :: _, [] => false
  | a :: as, b :: bs =>
    if a.toNat < b.toNat then true
    else if b.toNat < a.toNat then false
    else charListLe as bs

/-- `a.localeCompare(b) <= 0` on the strings compared by the agenda
summary (HH:MM time strings): code-point order. -/
def strLe (a b : String) : Bool :=
  charListLe a.data b.data

/-- `Array.prototype.join('\n')` after the source's `filter(Boolean)`. -/
def joinLines : List String → String
  | [] => ""
  | [l] => l
  | l :: ls => l ++ "\n" ++ joinLines ls

/-- The single decimal digit character of `n ≤ 9`, as produced by the
JavaScript `String(number)` conversion digit by digit. -/
def digitChar (n : Nat) : Char :=
  if n = 0 then '0' else if n = 1 then '1' else if n = 2 then '2'
  else if n = 3 then '3' else if n = 4 then '4' else if n = 5 then '5'
  else if n = 6 then '6' else if n = 7 then '7' else if n = 8 then '8' else '9'

/-! ### Alert-settings normalization (hook `useHourlyAgendaAlerts`) -/

/-- `DEFAULT_ALERT_TIME` of the alerts hook. -/
def DEFAULT_ALERT_TIME : String := "08:00"

/-- `normalizePhoneInput`: `value.replace(/\D/g, '')`. -/
def normalizePhoneInput (value : String) : String :=
  String.mk (value.data.filter isDigitChar)

/-- `normalizeAlertTime`: trim, require the shape `\d\d:\d\d`, parse the
hour and minute, reject out-of-range values, and re-emit the zero-padded
`HH:MM` (`String(hour).padStart(2, '0')`); every failure falls back to
`DEFAULT_ALERT_TIME`. -/
def normalizeAlertTime (value : Option String) : String :=
  let candidate := jsTrim (value.getD "")
  match candidate.data with
  | [h1, h2, c, m1, m2] =>
    if isDigitChar h1 && isDigitChar h2 && c == ':' && isDigitChar m1 && isDigitChar m2 then
      let hour := 10 * (h1.toNat - 48) + (h2.toNat - 48)
      let minute := 10 * (m1.toNat - 48) + (m2.toNat - 48)
      if hour ≤ 23 && minute ≤ 59 then
        String.mk [digitChar (hour / 10), digitChar (hour % 10), ':',
                   digitChar (minute / 10), digitChar (minute % 10)]
      else DEFAULT_ALERT_TIME
    else DEFAULT_ALERT_TIME
  | _ => DEFAULT_ALERT_TIME

/-- A valid zero-padded 24-hour `HH:MM` string in `[00:00, 23:59]`
(the invariant stated by the specification for alert times). -/
def isValidAlertTime (s : String) : Bool :=
  match s.data with
  | [h1, h2, c, m1, m2] =>
    isDigitChar h1 && isDigitChar h2 && c == ':' && isDigitChar m1 && isDigitChar m2 &&
      (10 * (h1.toNat - 48) + (h2.toNat - 48)) ≤ 23 &&
      (10 * (m1.toNat - 48) + (m2.toNat - 48)) ≤ 59
  | _ => false

/-- `toWhatsAppPhone`: strip non-digits, then keep a `972` prefix, replace
a leading `0` by `972`, prepend `972` to any other string of at least 8
digits, and fail otherwise. -/
def toWhatsAppPhone (phone : Option String) : Option String :=
  let digits := normalizePhoneInput (phone.getD "")
  if digits = "" then none
  else if strStartsWith digits "972" then some digits
  else if strStartsWith digits "0" then some ("972" ++ strDrop digits 1)
  else if 8 ≤ strLength digits then some ("972" ++ digits)
  else none

/-! ### Permissive numeric parsing (`EventEditorView.parseNumber`) -/

/-- The decimal-literal branch of `parseNumber`: the regular expression
`^-?\d+(\.\d+)?$` followed by the JavaScript `Number` conversion, with the
exact rational value of the literal. -/
def parseDecimalCandidate (cs : List Char) : Option ℚ :=
  let neg : Bool := match cs with | '-' :: _ => true | _ => false
  let rest : List Char := match cs with | '-' :: r => r | _ => cs
  let intPart := rest.takeWhile isDigitChar
  let rest2 := rest.dropWhile isDigitChar
  if intPart.isEmpty then none
  else
    match rest2 with
    | [] => some ((if neg then -1 else 1) * (digitsToNat intPart : ℚ))
    | '.' :: frac =>
      if !frac.isEmpty && frac.all isDigitChar then
        some ((if neg then -1 else 1) *
          ((digitsToNat intPart : ℚ) + (digitsToNat frac : ℚ) / (10 : ℚ) ^ frac.length))
      else none
    | _ => none

/-- `parseNumber`: trim; empty means `null`; replace the first comma by a
dot and accept a decimal literal; otherwise strip every non-digit and
accept the remaining digits; `null` when nothing remains. -/
def parseNumber (value : String) : Option ℚ :=
  let trimmed := jsTrim value
  if trimmed = "" then none
  else
    match parseDecimalCandidate (replaceFirstChar ',' '.' trimmed.data) with
    | some q => some q
    | none =>
      let digitsOnly := trimmed.data.filter isDigitChar
      if digitsOnly.isEmpty then none
      else some (digitsToNat digitsOnly : ℚ)

/-! ### The event questionnaire (controller `eventQuestionnaire`) -/

/-- The `QuestionKind` union of the questionnaire controller. -/
inductive QuestionKind
  | text
  | tel
  | number
  | date
  | time
  | textarea
  | select
  deriving DecidableEq, Repr

set_option maxHeartbeats 1000000 in
/-- Every questionnaire field key with its kind, in section order
(`eventQuestionnaireSections.flatMap (section => section.fields)`). -/
def eventQuestionnaireFields : List (String × QuestionKind) :=
  [("coupleName", .text), ("date", .date), ("hall", .text), ("status", .text),
   ("guests", .number), ("budget", .number), ("contactPhone", .tel),
   ("groomName", .text), ("brideName", .text), ("groomFatherName", .text),
   ("groomMotherName", .text), ("groomFatherPhone", .tel), ("groomMotherPhone", .tel),
   ("brideFatherName", .text), ("brideMotherName", .text), ("brideFatherPhone", .tel),
   ("brideMotherPhone", .tel),
   ("groomPrepLocation", .text), ("bridePrepLocation", .text), ("groomEscort", .text),
   ("groomEscortPhone", .tel), ("brideEscort", .text), ("brideEscortPhone", .tel),
   ("arrivalTimeToHall", .time), ("eventHours", .text), ("eventManager", .text),
   ("chairsCommitment", .text), ("spareChairs", .text), ("authorizedSigner", .text),
   ("arrivalConfirmationsCompany", .text), ("seatingCompany", .text),
   ("seatingManagerPhone", .tel),
   ("groomWithEscort", .text), ("brideWithEscort", .text), ("groomEntrySong", .text),
   ("brideEntrySong", .text), ("siblingsEntry", .select), ("siblingsEntrySong", .text),
   ("waitingAtChuppah", .text), ("glassBreakSong", .text), ("afterShoeshbinim", .text),
   ("afterRings", .text), ("wineAtChuppah", .select), ("bridesBlessing", .select),
   ("bridesBlessingNote", .text), ("ushersOrPullCouple", .select), ("witnesses", .text),
   ("alcoholSource", .select), ("danceSeparationBarcodes", .text), ("slowDance", .select),
   ("slowDanceNote", .text),
   ("menus", .select), ("menusNote", .text), ("kippot", .select), ("kippotNote", .text),
   ("fans", .select), ("fansNote", .text), ("organizationBaskets", .select),
   ("organizationBasketsNote", .text), ("grapeJuice", .select), ("grapeJuiceNote", .text),
   ("sunglasses", .select), ("sunglassesNote", .text), ("gummiesAndTools", .select),
   ("gummiesAndToolsNote", .text),
   ("brideLook1Makeup", .select), ("brideLook1Hair", .select), ("brideLook2Makeup", .select),
   ("brideLook2Hair", .select), ("brideLook3Makeup", .select), ("brideLook3Hair", .select),
   ("brideNotes", .textarea)]

/-- `questionnaireNumberFields`: the keys whose kind is `number` or `tel`. -/
def questionnaireNumberFields : List String :=
  (eventQuestionnaireFields.filter
    (fun f => f.2 == QuestionKind.number || f.2 == QuestionKind.tel)).map (·.1)

/-- `isTrimField` of the editor view: kinds whose saved value is trimmed. -/
def isTrimField (kind : QuestionKind) : Bool :=
  kind == .text || kind == .textarea || kind == .tel || kind == .select

/-- A value stored under a field key of the persisted event record:
a JavaScript number or string. -/
inductive FieldVal
  | num (q : ℚ)
  | str (s : String)
  deriving DecidableEq

/-- The value the `saveEvent` loop leaves under one questionnaire key:
number/phone fields hold `parseNumber` of the display string or are
dropped (`payloadDraft[key] = undefined`, erased by `pruneUndefined`),
every other field holds the (possibly trimmed) display string.
`none` means the key is absent from the persisted payload. -/
def savedQuestionnaireField (form : String → String) (key : String) (kind : QuestionKind) :
    Option FieldVal :=
  if questionnaireNumberFields.contains key then
    (parseNumber (form key)).map FieldVal.num
  else
    some (.str (if isTrimField kind then jsTrim (form key) else form key))

/-- The questionnaire part of the payload persisted by `saveEvent`: every
questionnaire key paired with its saved value (`none` = key omitted). -/
def savedQuestionnairePayload (form : String → String) : List (String × Option FieldVal) :=
  eventQuestionnaireFields.map (fun f => (f.1, savedQuestionnaireField form f.1 f.2))

/-! ### Supplier records and the supplier save pipeline -/

/-- `SupplierRecord` of `controlers/types`: optional fields are `Option`. -/
structure SupplierRecord where
  id : String
  role : String
  name : Option String
  phone : Option ℚ
  hours : Option String
  totalPayment : Option ℚ
  deposit : Option ℚ
  balance : Option ℚ
  paymentReceivedAmount : Option ℚ
  paymentReceivedHours : Option String
  paymentReceivedDate : Option String
  paymentReceivedName : Option String
  paymentReceivedSignature : Option String
  hasSigned : Option Bool
  deriving DecidableEq

/-- `SupplierFormState` of the editor: every field held as a display string. -/
structure SupplierFormState where
  id : String
  role : String
  name : String
  phone : String
  hours : String
  totalPayment : String
  deposit : String
  balance : String
  deriving DecidableEq

/-- The `saveEvent` supplier filter: an entry is kept when its trimmed
role or its trimmed name is non-empty (`supplier.role.trim() || supplier.name.trim()`). -/
def keepSupplierEntry (s : SupplierFormState) : Bool :=
  !(jsTrim s.role == "") || !(jsTrim s.name == "")

/-- The `saveEvent` supplier mapper: spread the matching existing record
(keeping its sign-off fields), overwrite id/role/name/hours with the
trimmed form values, and set or delete each numeric field according to
`parseNumber`. -/
def mapSupplierToRecord (eventSuppliers : Option (List SupplierRecord))
    (s : SupplierFormState) : SupplierRecord :=
  let cur := (eventSuppliers.getD []).find? (fun item => item.id == s.id)
  { id := s.id
    role := jsTrim s.role
    name := some (jsTrim s.name)
    hours := some (jsTrim s.hours)
    phone := parseNumber s.phone
    totalPayment := parseNumber s.totalPayment
    deposit := parseNumber s.deposit
    balance := parseNumber s.balance
    paymentReceivedAmount := cur.bind (·.paymentReceivedAmount)
    paymentReceivedHours := cur.bind (·.paymentReceivedHours)
    paymentReceivedDate := cur.bind (·.paymentReceivedDate)
    paymentReceivedName := cur.bind (·.paymentReceivedName)
    paymentReceivedSignature := cur.bind (·.paymentReceivedSignature)
    hasSigned := cur.bind (·.hasSigned) }

/-- `nextSuppliers` of `saveEvent`: filter out blank entries, then map the
survivors onto persisted records. -/
def computeNextSuppliers (eventSuppliers : Option (List SupplierRecord))
    (suppliers : List SupplierFormState) : List SupplierRecord :=
  (suppliers.filter keepSupplierEntry).map (mapSupplierToRecord eventSuppliers)

/-! ### Local storage and the draft lifecycle of `saveEvent` -/

/-- Local device storage: an association list of string keys and values. -/
def LocalStorage : Type := List (String × String)

/-- `localStorage.getItem`. -/
def storageGet (st : LocalStorage) (k : String) : Option String :=
  ((st : List (String × String)).find? (fun e => e.1 == k)).map (·.2)

/-- `localStorage.removeItem`. -/
def storageRemove (st : LocalStorage) (k : String) : LocalStorage :=
  (st : List (String × String)).filter (fun e => e.1 != k)

/-- The outcome of one `saveEvent` call, as visible to the draft
lifecycle: the resulting local storage, whether the error state was set,
and whether the editor closed (`onCancel`). -/
structure SaveEventOutcome where
  storage : LocalStorage
  errored : Bool
  closed : Bool

/-- The `saveEvent` control flow around the remote write: a blank couple
name aborts with an error; on a successful `onSave` the draft entry is
removed exactly when `closeAfterSave` was requested, and the editor
closes on `closeAfterSave`; a failed `onSave` sets the error and leaves
storage untouched. -/
def saveEventEffect (store : LocalStorage) (draftKey : String)
    (canSave saveSucceeds closeAfterSave : Bool) : SaveEventOutcome :=
  if !canSave then { storage := store, errored := true, closed := false }
  else if saveSucceeds then
    { storage := if closeAfterSave then storageRemove store draftKey else store
      errored := false
      closed := closeAfterSave }
  else { storage := store, errored := true, closed := false }

/-! ### The daily alert scheduler (`triggerDailyAlerts`) -/

/-- One tick of the scheduler's one-minute interval: the wall clock's
`formatDateKey(now)` and `HH:MM` reading at that tick. -/
structure SchedulerTick where
  dateKey : String
  currentTime : String
  deriving DecidableEq

/-- `slotKey` of `triggerDailyAlerts`: date key and alert time joined by a dash. -/
def slotKeyOf (alertsTime : String) (t : SchedulerTick) : String :=
  t.dateKey ++ "-" ++ alertsTime

/-- One run of `triggerDailyAlerts`: whether the summary computation fires
at this tick, and the new `lastTriggeredSlotRef` value. -/
def triggerStep (alertsTime lastSlot : String) (t : SchedulerTick) : Bool × String :=
  if t.currentTime ≠ alertsTime then (false, lastSlot)
  else if lastSlot = slotKeyOf alertsTime t then (false, lastSlot)
  else (true, slotKeyOf alertsTime t)

/-- The slots at which a sequence of ticks fires the summary computation,
threading `lastTriggeredSlotRef` through `triggerDailyAlerts`. -/
def firedSlots (alertsTime lastSlot : String) : List SchedulerTick → List String
  | [] => []
  | t :: ts =>
    let step := triggerStep alertsTime lastSlot t
    if step.1 then slotKeyOf alertsTime t :: firedSlots alertsTime step.2 ts
    else firedSlots alertsTime step.2 ts

/-! ### The agenda summary (`buildAgendaSummary`) -/

/-- `MeetingRecord` of `controlers/types` (fields read by the summary). -/
structure MeetingRecord where
  id : String
  coupleName : String
  location : String
  date : String
  time : String
  deriving DecidableEq

/-- `EventRecord`, restricted to the fields the agenda summary and the
sign-off flow read; the questionnaire fields are modelled separately
(`EditorEventRecord`) because the editor accesses them by key string. -/
structure EventRecord where
  id : String
  coupleName : String
  date : String
  hall : String
  suppliers : Option (List SupplierRecord)
  deriving DecidableEq

/-- The regular expression `^\d{4}-\d{2}-\d{2}$` of `toDateKey`. -/
def isIsoDateKey (s : String) : Bool :=
  match s.data with
  | [y1, y2, y3, y4, d1, m1, m2, d2, a1, a2] =>
    isDigitChar y1 && isDigitChar y2 && isDigitChar y3 && isDigitChar y4 &&
      d1 == '-' && isDigitChar m1 && isDigitChar m2 &&
      d2 == '-' && isDigitChar a1 && isDigitChar a2
  | _ => false

/-- `toDateKey`: empty stays empty, a `YYYY-MM-DD` string is returned
as-is, and anything else goes through the JavaScript date parser
(`new Date(raw)` then `formatDateKey`, or the empty string on `NaN`),
abstracted as the parameter `jsDateParse`. -/
def toDateKey (jsDateParse : String → String) (rawValue : String) : String :=
  if rawValue = "" then ""
  else if isIsoDateKey rawValue then rawValue
  else jsDateParse rawValue

/-- Stable ascending insertion by meeting time, modelling the stable
`Array.prototype.sort` with the `localeCompare` comparator on times. -/
def insertByTime (m : MeetingRecord) : List MeetingRecord → List MeetingRecord
  | [] => [m]
  | x :: xs => if strLe x.time m.time then x :: insertByTime m xs else m :: x :: xs

/-- `meetings.sort((a, b) => a.time.localeCompare(b.time))`: a stable
ascending sort by time. -/
def sortByTime : List MeetingRecord → List MeetingRecord
  | [] => []
  | m :: ms => insertByTime m (sortByTime ms)

/-- `AgendaSummary` of the alerts hook. -/
structure AgendaSummary where
  title : String
  notificationBody : String
  phoneMessage : String
  meetingsCount : Nat
  eventsCount : Nat
  deriving DecidableEq

/-- The line printed for one meeting of the day. -/
def meetingLine (m : MeetingRecord) : String :=
  "• " ++ (if m.time = "" then "--:--" else m.time) ++ " | " ++
    (if m.coupleName = "" then "זוג ללא שם" else m.coupleName) ++ " | " ++
    (if m.location = "" then "מיקום לא הוגדר" else m.location)

/-- The line printed for one event of the day. -/
def eventLine (e : EventRecord) : String :=
  "• " ++ (if e.coupleName = "" then "אירוע ללא שם" else e.coupleName) ++ " | " ++
    (if e.hall = "" then "אולם לא הוגדר" else e.hall)

/-- `buildAgendaSummary`: filter both lists to today's local date key,
sort the meetings by time, return `null` when both are empty, and build
the notification texts and the line-itemized phone message. `todayKey`
is the `formatDateKey(now)` reading. -/
def buildAgendaSummary (jsDateParse : String → String) (meetings : List MeetingRecord)
    (events : List EventRecord) (todayKey alertLabel : String) : Option AgendaSummary :=
  let meetingsToday := sortByTime
    (meetings.filter (fun m => toDateKey jsDateParse m.date == todayKey))
  let eventsToday := events.filter (fun e => toDateKey jsDateParse e.date == todayKey)
  if meetingsToday.isEmpty && eventsToday.isEmpty then none
  else
    let title := "תזכורת יומית " ++ alertLabel
    let notificationBody :=
      "להיום: " ++ Nat.repr meetingsToday.length ++ " פגישות, " ++
        Nat.repr eventsToday.length ++ " אירועים"
    let phoneMessage := joinLines
      ((([title, notificationBody,
          if meetingsToday.isEmpty then "" else "פגישות היום:"] ++
          meetingsToday.map meetingLine ++
          [if eventsToday.isEmpty then "" else "אירועים היום:"] ++
          eventsToday.map eventLine).filter (fun line => line ≠ "")))
    some { title := title, notificationBody := notificationBody, phoneMessage := phoneMessage,
           meetingsCount := meetingsToday.length, eventsCount := eventsToday.length }

/-! ### The editor draft pipeline (`EventEditorView` mount effect) -/

/-- The duck-typed event record as the editor reads it: a partial map from
field key to stored value, plus the suppliers list. -/
structure EditorEventRecord where
  fields : String → Option FieldVal
  suppliers : Option (List SupplierRecord)

/-- The default escort value of the questionnaire controller. -/
def parentsEscortDefaultValue : String := "על ידי ההורים"

/-- The two escort keys that receive the default value. -/
def isEscortKey (key : String) : Bool :=
  key == "groomWithEscort" || key == "brideWithEscort"

/-- `createQuestionnaireFormState`: derive the display string of one field
from the record — positive numbers via `String(value)` (the parameter
`numToString`), strings as-is with the escort default for blank escort
fields, and the empty string (or the escort default) when absent. -/
def createQuestionnaireFormState (numToString : ℚ → String)
    (ev : Option EditorEventRecord) (key : String) : String :=
  match ev.bind (fun e => e.fields key) with
  | some (.num q) => if 0 < q then numToString q else ""
  | some (.str s) =>
    if isEscortKey key && jsTrim s == "" then parentsEscortDefaultValue else s
  | none => if isEscortKey key then parentsEscortDefaultValue else ""

/-- `stringifyNumber` of the editor: blank for a missing, `NaN` or
non-positive number, `String(value)` otherwise. -/
def stringifyNumber (numToString : ℚ → String) (v : Option ℚ) : String :=
  match v with
  | some q => if q ≤ 0 then "" else numToString q
  | none => ""

/-- `mapSupplierToForm`: turn a persisted supplier into editor display
strings (`freshId` stands for the `makeId()` fallback). -/
def mapSupplierToForm (numToString : ℚ → String) (freshId : String)
    (s : SupplierRecord) : SupplierFormState :=
  { id := if s.id = "" then freshId else s.id
    role := s.role
    name := s.name.getD ""
    phone := stringifyNumber numToString s.phone
    hours := s.hours.getD ""
    totalPayment := stringifyNumber numToString s.totalPayment
    deposit := stringifyNumber numToString s.deposit
    balance := stringifyNumber numToString s.balance }

/-- `defaultSupplier()`: a blank supplier row with a fresh id. -/
def defaultSupplier (freshId : String) : SupplierFormState :=
  { id := freshId, role := "", name := "", phone := "", hours := "",
    totalPayment := "", deposit := "", balance := "" }

/-- The supplier rows shown when no draft supplies them: the record's
suppliers mapped to form state, or one blank row. -/
def defaultSuppliersFromEvent (numToString : ℚ → String) (freshId : String)
    (ev : Option EditorEventRecord) : List SupplierFormState :=
  match ev.bind (·.suppliers) with
  | some (s :: ss) => (s :: ss).map (mapSupplierToForm numToString freshId)
  | _ => [defaultSupplier freshId]

/-- A parsed local-storage draft (`JSON.parse` of the stored payload);
each top-level key may be absent. -/
structure QuestionnaireDraft where
  form : Option (String → Option String)
  suppliers : Option (List SupplierFormState)
  currentStep : Option Int

/-- The editor state restored at mount. -/
structure EditorState where
  form : String → String
  suppliers : List SupplierFormState
  currentStep : Int

/-- `editorSteps.length`: the wizard has six steps. -/
def totalSteps : Int := 6

/-- The mount effect of `EventEditorView`: with a parseable draft, merge
its field map over the baseline (draft wins per key), restore a non-empty
supplier list, and clamp the step index to `[0, totalSteps-1]`; with no
draft (or an unparseable one, removed), fall back to the baseline and
step `0`. -/
def loadEditorState (numToString : ℚ → String) (freshId : String)
    (ev : Option EditorEventRecord) (draft : Option QuestionnaireDraft) : EditorState :=
  match draft with
  | some d =>
    let baseForm := createQuestionnaireFormState numToString ev
    { form :=
        match d.form with
        | some df => fun key => (df key).getD (baseForm key)
        | none => baseForm
      suppliers :=
        match d.suppliers with
        | some (s :: ss) => s :: ss
        | _ => defaultSuppliersFromEvent numToString freshId ev
      currentStep :=
        match d.currentStep with
        | some n => min (max n 0) (totalSteps - 1)
        | none => 0 }
  | none =>
    { form := createQuestionnaireFormState numToString ev
      suppliers := defaultSuppliersFromEvent numToString freshId ev
      currentStep := 0 }

/-! ### Supplier sign-off (`EventDetailView` and `handleSignSupplier`) -/

/-- `SupplierSignatureModalState` of the detail view. -/
structure SupplierSignatureModalState where
  supplierId : String
  supplierName : String
  amount : String
  startHour : String
  endHour : String
  signature : String
  deriving DecidableEq

/-- `SupplierSignaturePayload`: every key optional; `none` means the key
is absent from the submitted object. -/
structure SupplierSignaturePayload where
  paymentReceivedAmount : Option ℚ := none
  paymentReceivedHours : Option String := none
  paymentReceivedDate : Option String := none
  paymentReceivedName : Option String := none
  paymentReceivedSignature : Option String := none
  hasSigned : Option Bool := none
  deriving DecidableEq

/-- `supplierPaidAmount`: received amount, else deposit, else zero. -/
def supplierPaidAmount (s : SupplierRecord) : ℚ :=
  match s.paymentReceivedAmount with
  | some a => a
  | none => match s.deposit with
    | some d => d
    | none => 0

/-- `supplierRemainingAmount`: total minus paid clamped at zero, else the
clamped balance, else nothing. -/
def supplierRemainingAmount (s : SupplierRecord) : Option ℚ :=
  match s.totalPayment with
  | some t => some (max (t - supplierPaidAmount s) 0)
  | none => match s.balance with
    | some b => some (max b 0)
    | none => none

/-- `supplierSignatureDefaultAmount`: the clamped balance when present,
else the remaining amount. -/
def supplierSignatureDefaultAmount (s : SupplierRecord) : Option ℚ :=
  match s.balance with
  | some b => some (max b 0)
  | none => supplierRemainingAmount s

/-- The signer name label substituted by the sign-off form. -/
def signerNameLabel : String := "מנהל אירוע"

/-- `handleSupplierSignatureSubmit`, reduced to the payload it submits:
the amount text goes through the JavaScript `Number` conversion
(abstracted as `jsNumber`, `none` for a non-finite result), a blank
canvas signature is replaced by the textual fallback carrying the signer
name, the work hours are joined when present, and the payload always
carries `hasSigned: true` and today's ISO date (`todayKey`). -/
def buildSupplierSignaturePayload (jsNumber : String → Option ℚ)
    (modal : SupplierSignatureModalState) (selectedSupplier : SupplierRecord)
    (todayKey : String) : SupplierSignaturePayload :=
  let defaultAmount := supplierSignatureDefaultAmount selectedSupplier
  let amountText := jsTrim (String.mk (replaceFirstChar ',' '.' modal.amount.data))
  let normalizedAmount : Option ℚ := if amountText = "" then none else jsNumber amountText
  let signatureValue :=
    if jsTrim modal.signature = "" then "חתימה דיגיטלית: " ++ signerNameLabel
    else jsTrim modal.signature
  let workHoursText :=
    if modal.startHour ≠ "" && modal.endHour ≠ "" then
      modal.startHour ++ " - " ++ modal.endHour
    else if modal.startHour ≠ "" then modal.startHour
    else if modal.endHour ≠ "" then modal.endHour
    else ""
  { hasSigned := some true
    paymentReceivedDate := some todayKey
    paymentReceivedName := some signerNameLabel
    paymentReceivedSignature := some signatureValue
    paymentReceivedHours := if workHoursText ≠ "" then some workHoursText else none
    paymentReceivedAmount :=
      match normalizedAmount with
      | some q => some q
      | none => defaultAmount }

/-- The object spread `{ ...supplier, ...payload }`: every key present in
the payload overwrites the supplier's value, every other key keeps it. -/
def mergeSignatureIntoSupplier (s : SupplierRecord) (p : SupplierSignaturePayload) :
    SupplierRecord :=
  { s with
    paymentReceivedAmount :=
      match p.paymentReceivedAmount with
      | some a => some a
      | none => s.paymentReceivedAmount
    paymentReceivedHours :=
      match p.paymentReceivedHours with
      | some h => some h
      | none => s.paymentReceivedHours
    paymentReceivedDate :=
      match p.paymentReceivedDate with
      | some d => some d
      | none => s.paymentReceivedDate
    paymentReceivedName :=
      match p.paymentReceivedName with
      | some n => some n
      | none => s.paymentReceivedName
    paymentReceivedSignature :=
      match p.paymentReceivedSignature with
      | some sig => some sig
      | none => s.paymentReceivedSignature
    hasSigned :=
      match p.hasSigned with
      | some b => some b
      | none => s.hasSigned }

/-- `handleSignSupplier`: find the event; throw (writing nothing) when it
is missing or has no suppliers list; otherwise write back the supplier
list with the payload merged into the matching entry. The `.ok` value is
the suppliers array passed to the document update. -/
def handleSignSupplier (events : List EventRecord) (eventId supplierId : String)
    (payload : SupplierSignaturePayload) : Except String (List SupplierRecord) :=
  match events.find? (fun item => item.id == eventId) with
  | none => .error "Event or suppliers not found."
  | some targetEvent =>
    match targetEvent.suppliers with
    | none => .error "Event or suppliers not found."
    | some ss =>
      .ok (ss.map (fun s =>
        if s.id == supplierId then mergeSignatureIntoSupplier s payload else s))

/-! ### Helper lemmas -/

theorem char_toNat_inj {a b : Char} (h : a.toNat = b.toNat) : a = b :=
  Char.ext (UInt32.ext h)

theorem digitChar_isDigitChar {n : Nat} (h : n ≤ 9) : isDigitChar (digitChar n) = true := by
  interval_cases n <;> decide

theorem digitChar_toNat {n : Nat} (h : n ≤ 9) : (digitChar n).toNat = 48 + n := by
  interval_cases n <;> decide

theorem isValidAlertTime_construct (hour minute : Nat) (hh : hour ≤ 23) (hm : minute ≤ 59) :
    isValidAlertTime (String.mk [digitChar (hour / 10), digitChar (hour % 10), ':',
      digitChar (minute / 10), digitChar (minute % 10)]) = true := by
  have d1 : hour / 10 ≤ 9 := by omega
  have d2 : hour % 10 ≤ 9 := by omega
  have d3 : minute / 10 ≤ 9 := by omega
  have d4 : minute % 10 ≤ 9 := by omega
  show (isDigitChar (digitChar (hour / 10)) && isDigitChar (digitChar (hour % 10)) &&
      (':' == ':') && isDigitChar (digitChar (minute / 10)) &&
      isDigitChar (digitChar (minute % 10)) &&
      ((10 * ((digitChar (hour / 10)).toNat - 48) + ((digitChar (hour % 10)).toNat - 48)) ≤ 23) &&
      ((10 * ((digitChar (minute / 10)).toNat - 48) +
        ((digitChar (minute % 10)).toNat - 48)) ≤ 59)) = true
  simp only [digitChar_isDigitChar d1, digitChar_isDigitChar d2, digitChar_isDigitChar d3,
    digitChar_isDigitChar d4, digitChar_toNat d1, digitChar_toNat d2, digitChar_toNat d3,
    digitChar_toNat d4, Bool.and_eq_true, decide_eq_true_eq, beq_self_eq_true, true_and, and_true]
  omega

/-- C7: Alert-time normalization: `"9:5"`, `"25:00"` and `""` fall back
to the fixed default `"08:00"`, `"14:30"` passes through unchanged, the
result is always a valid zero-padded `HH:MM` in `[00:00, 23:59]`, and any
input whose trimmed form is not such a time maps to the default. -/
theorem normalizeAlertTime_valid_or_default :
    normalizeAlertTime (some "9:5") = "08:00" ∧
    normalizeAlertTime (some "25:00") = "08:00" ∧
    normalizeAlertTime (some "") = "08:00" ∧
    normalizeAlertTime (some "14:30") = "14:30" ∧
    (∀ v : Option String, isValidAlertTime (normalizeAlertTime v) = true) ∧
    (∀ v : Option String, isValidAlertTime (jsTrim (v.getD "")) = false →
      normalizeAlertTime v = "08:00") := by
  refine ⟨by decide, by decide, by decide, by decide, ?_, ?_⟩
  · intro v
    simp only [normalizeAlertTime]
    split
    · split_ifs with hd hr
      · exact isValidAlertTime_construct _ _ (by
          simp only [Bool.and_eq_true, decide_eq_true_eq] at hr; exact hr.1) (by
          simp only [Bool.and_eq_true, decide_eq_true_eq] at hr; exact hr.2)
      · decide
      · decide
    · decide
  · intro v hinvalid
    simp only [normalizeAlertTime]
    split
    · next h1 h2 c m1 m2 heq =>
      split_ifs with hd hr
      · exfalso
        have : isValidAlertTime (jsTrim (v.getD "")) = true := by
          simp only [isValidAlertTime, heq]
          simp only [Bool.and_eq_true, decide_eq_true_eq] at hd hr ⊢
          exact ⟨⟨⟨⟨⟨⟨hd.1.1.1.1, hd.1.1.1.2⟩, hd.1.1.2⟩, hd.1.2⟩, hd.2⟩, hr.1⟩, hr.2⟩
        rw [hinvalid] at this
        exact Bool.false_ne_true this
      · rfl
      · rfl
    · rfl

/-- C2: Phone normalization: the dialable form keeps a `972` prefix,
replaces a leading `0` by `972`, prepends `972` to eight or more digits,
and otherwise yields no deep link; with the three concrete examples of
the specification. -/
theorem toWhatsAppPhone_spec :
    (∀ phone : Option String,
      toWhatsAppPhone phone =
        (let digits := normalizePhoneInput (phone.getD "")
         if strStartsWith digits "972" then some digits
         else if strStartsWith digits "0" then some ("972" ++ strDrop digits 1)
         else if 8 ≤ strLength digits then some ("972" ++ digits)
         else none)) ∧
    toWhatsAppPhone (some "0501234567") = some "972501234567" ∧
    toWhatsAppPhone (some "972501234567") = some "972501234567" ∧
    toWhatsAppPhone (some "123") = none := by
  refine ⟨?_, by decide, by decide, by decide⟩
  intro phone
  simp only [toWhatsAppPhone]
  by_cases h : normalizePhoneInput (phone.getD "") = ""
  · rw [h]
    decide
  · simp only [h, if_false]

/-- C1 counterexample: The questionnaire money parser does not read
`"1,500"` as fifteen hundred. -/
theorem parseNumber_comma_not_thousands : parseNumber "1,500" ≠ some (1500 : ℚ) := by
  have h : parseNumber "1,500" =
      some ((1 : ℚ) * ((digitsToNat ['1'] : ℚ) +
        (digitsToNat ['5', '0', '0'] : ℚ) / (10 : ℚ) ^ (['5', '0', '0'].length))) := rfl
  have e1 : digitsToNat ['1'] = 1 := rfl
  have e2 : digitsToNat ['5', '0', '0'] = 500 := rfl
  rw [h, e1, e2]
  simp only [ne_eq, Option.some.injEq, List.length_cons, List.length_nil]
  norm_num

/-- C1 amended: `"1,500"` parses to `1.5` (the comma is read as a
decimal point), the empty string parses to nothing, and every designated
numeric/phone questionnaire field whose display string fails to parse is
omitted from the persisted payload rather than saved as zero. -/
theorem parseNumber_roundtrip_amended :
    parseNumber "1,500" = some ((3 : ℚ) / 2) ∧
    parseNumber "" = none ∧
    (∀ (form : String → String) (key : String) (kind : QuestionKind),
      questionnaireNumberFields.contains key = true →
      parseNumber (form key) = none →
      savedQuestionnaireField form key kind = none) := by
  refine ⟨?_, by decide, ?_⟩
  · have h : parseNumber "1,500" =
        some ((1 : ℚ) * ((digitsToNat ['1'] : ℚ) +
          (digitsToNat ['5', '0', '0'] : ℚ) / (10 : ℚ) ^ (['5', '0', '0'].length))) := rfl
    have e1 : digitsToNat ['1'] = 1 := rfl
    have e2 : digitsToNat ['5', '0', '0'] = 500 := rfl
    rw [h, e1, e2]
    simp only [Option.some.injEq, List.length_cons, List.length_nil]
    norm_num
  · intro form key kind hnum hparse
    simp only [savedQuestionnaireField, hnum, if_true, hparse, Option.map_none']

/-- C1 witness: The empty display string of the `budget` money field is
omitted from the saved payload. -/
theorem parseNumber_roundtrip_amended_witness :
    savedQuestionnaireField (fun _ => "") "budget" QuestionKind.number = none :=
  parseNumber_roundtrip_amended.2.2 (fun _ => "") "budget" QuestionKind.number
    (by decide) (by decide)

/-- C6: Supplier filtering at save time: the persisted supplier list is
exactly the blank-filtered rows mapped to records, a row is dropped by the
filter precisely when both its trimmed role and trimmed name are empty,
and the filter ignores every other field of the row. -/
theorem saveEvent_supplier_filter :
    (∀ (ev : Option (List SupplierRecord)) (ss : List SupplierFormState),
      computeNextSuppliers ev ss = (ss.filter keepSupplierEntry).map (mapSupplierToRecord ev)) ∧
    (∀ s : SupplierFormState,
      keepSupplierEntry s = false ↔ (jsTrim s.role = "" ∧ jsTrim s.name = "")) ∧
    (∀ (s : SupplierFormState) (ph hr tp dp bl : String),
      keepSupplierEntry
        { s with phone := ph, hours := hr, totalPayment := tp, deposit := dp, balance := bl } =
        keepSupplierEntry s) := by
  refine ⟨fun _ _ => rfl, ?_, fun _ _ _ _ _ _ => rfl⟩
  intro s
  simp only [keepSupplierEntry, Bool.or_eq_false_iff, Bool.not_eq_false', beq_iff_eq]

/-- C8: Draft lifecycle on save: with a non-blank couple name, a
successful save-and-close deletes the draft entry for the current key,
while an intermediate save or a failed save leaves local storage
untouched. -/
theorem saveEvent_draft_lifecycle :
    ∀ (store : LocalStorage) (draftKey : String) (saveSucceeds closeAfterSave : Bool),
      ((saveSucceeds = true ∧ closeAfterSave = true) →
        storageGet (saveEventEffect store draftKey true saveSucceeds closeAfterSave).storage
          draftKey = none) ∧
      (¬(saveSucceeds = true ∧ closeAfterSave = true) →
        (saveEventEffect store draftKey true saveSucceeds closeAfterSave).storage = store) := by
  have hremove : ∀ (st : LocalStorage) (k : String), storageGet (storageRemove st k) k = none := by
    intro st k
    simp only [storageGet, Option.map_eq_none']
    rw [List.find?_eq_none]
    intro x hx
    simp only [storageRemove, List.mem_filter, bne_iff_ne, ne_eq] at hx
    simp only [beq_iff_eq]
    exact hx.2
  intro store draftKey saveSucceeds closeAfterSave
  constructor
  · rintro ⟨hok, hclose⟩
    subst hok; subst hclose
    simpa [saveEventEffect] using hremove store draftKey
  · intro hnot
    cases saveSucceeds with
    | false => cases closeAfterSave <;> simp [saveEventEffect]
    | true =>
      cases closeAfterSave with
      | false => simp [saveEventEffect]
      | true => exact absurd ⟨rfl, rfl⟩ hnot

/-- C8 witness: A successful save-and-close removes the stored draft
for the event key. -/
theorem saveEvent_draft_lifecycle_witness :
    storageGet (saveEventEffect [("webose:event-draft:new", "draft-json")]
      "webose:event-draft:new" true true true).storage "webose:event-draft:new" = none :=
  (saveEvent_draft_lifecycle [("webose:event-draft:new", "draft-json")]
    "webose:event-draft:new" true true).1 ⟨rfl, rfl⟩

/-- C9: Signature submit fallback: the submitted sign-off payload
always carries `hasSigned: true` and today's date, and a blank (or
whitespace-only) canvas signature is replaced by the textual fallback
built from the signer name label instead of blocking submission. -/
theorem supplierSignatureSubmit_fallback :
    ∀ (jsNumber : String → Option ℚ) (modal : SupplierSignatureModalState)
      (s : SupplierRecord) (todayKey : String),
      (buildSupplierSignaturePayload jsNumber modal s todayKey).hasSigned = some true ∧
      (buildSupplierSignaturePayload jsNumber modal s todayKey).paymentReceivedDate =
        some todayKey ∧
      (jsTrim modal.signature = "" →
        (buildSupplierSignaturePayload jsNumber modal s todayKey).paymentReceivedSignature =
          some ("חתימה דיגיטלית: " ++ signerNameLabel)) ∧
      (jsTrim modal.signature ≠ "" →
        (buildSupplierSignaturePayload jsNumber modal s todayKey).paymentReceivedSignature =
          some (jsTrim modal.signature)) := by
  intro jsNumber modal s todayKey
  refine ⟨rfl, rfl, ?_, ?_⟩
  · intro hblank
    simp only [buildSupplierSignaturePayload, hblank, if_pos]
  · intro hsig
    simp only [buildSupplierSignaturePayload, if_neg hsig]

/-- C9 witness: A whitespace-only canvas signature submits with the
textual fallback signature. -/
theorem supplierSignatureSubmit_fallback_witness :
    (buildSupplierSignaturePayload (fun _ => none)
      { supplierId := "s1", supplierName := "DJ", amount := "", startHour := "",
        endHour := "", signature := "   " }
      { id := "s1", role := "DJ", name := none, phone := none, hours := none,
        totalPayment := none, deposit := none, balance := none,
        paymentReceivedAmount := none, paymentReceivedHours := none,
        paymentReceivedDate := none, paymentReceivedName := none,
        paymentReceivedSignature := none, hasSigned := none }
      "2026-03-15").paymentReceivedSignature = some ("חתימה דיגיטלית: " ++ signerNameLabel) :=
  (supplierSignatureSubmit_fallback (fun _ => none)
    { supplierId := "s1", supplierName := "DJ", amount := "", startHour := "",
      endHour := "", signature := "   " }
    { id := "s1", role := "DJ", name := none, phone := none, hours := none,
      totalPayment := none, deposit := none, balance := none,
      paymentReceivedAmount := none, paymentReceivedHours := none,
      paymentReceivedDate := none, paymentReceivedName := none,
      paymentReceivedSignature := none, hasSigned := none }
    "2026-03-15").2.2.1 (by decide)

/-- C10: Sign-off update is targeted and field-preserving: a missing
event or a missing suppliers list throws and writes nothing; otherwise
the written list replaces only the id-matched supplier, every other entry
is passed through unchanged, and the merge keeps every supplier field the
payload does not carry. -/
theorem handleSignSupplier_targeted :
    ∀ (events : List EventRecord) (eventId supplierId : String)
      (p : SupplierSignaturePayload),
      (events.find? (fun item => item.id == eventId) = none →
        handleSignSupplier events eventId supplierId p =
          .error "Event or suppliers not found.") ∧
      (∀ ev, events.find? (fun item => item.id == eventId) = some ev → ev.suppliers = none →
        handleSignSupplier events eventId supplierId p =
          .error "Event or suppliers not found.") ∧
      (∀ ev ss, events.find? (fun item => item.id == eventId) = some ev →
        ev.suppliers = some ss →
        handleSignSupplier events eventId supplierId p =
          .ok (ss.map (fun s =>
            if s.id == supplierId then mergeSignatureIntoSupplier s p else s)) ∧
        (∀ s ∈ ss, s.id ≠ supplierId →
          (if s.id == supplierId then mergeSignatureIntoSupplier s p else s) = s)) ∧
      (∀ s : SupplierRecord,
        (mergeSignatureIntoSupplier s p).id = s.id ∧
        (mergeSignatureIntoSupplier s p).role = s.role ∧
        (mergeSignatureIntoSupplier s p).name = s.name ∧
        (mergeSignatureIntoSupplier s p).phone = s.phone ∧
        (mergeSignatureIntoSupplier s p).hours = s.hours ∧
        (mergeSignatureIntoSupplier s p).totalPayment = s.totalPayment ∧
        (mergeSignatureIntoSupplier s p).deposit = s.deposit ∧
        (mergeSignatureIntoSupplier s p).balance = s.balance ∧
        (p.paymentReceivedAmount = none →
          (mergeSignatureIntoSupplier s p).paymentReceivedAmount = s.paymentReceivedAmount) ∧
        (p.paymentReceivedHours = none →
          (mergeSignatureIntoSupplier s p).paymentReceivedHours = s.paymentReceivedHours) ∧
        (p.paymentReceivedDate = none →
          (mergeSignatureIntoSupplier s p).paymentReceivedDate = s.paymentReceivedDate) ∧
        (p.paymentReceivedName = none →
          (mergeSignatureIntoSupplier s p).paymentReceivedName = s.paymentReceivedName) ∧
        (p.paymentReceivedSignature = none →
          (mergeSignatureIntoSupplier s p).paymentReceivedSignature =
            s.paymentReceivedSignature) ∧
        (p.hasSigned = none → (mergeSignatureIntoSupplier s p).hasSigned = s.hasSigned)) := by
  intro events eventId supplierId p
  refine ⟨?_, ?_, ?_, ?_⟩
  · intro hfind
    simp only [handleSignSupplier, hfind]
  · intro ev hfind hsup
    simp only [handleSignSupplier, hfind, hsup]
  · intro ev ss hfind hsup
    refine ⟨by simp only [handleSignSupplier, hfind, hsup], ?_⟩
    intro s _ hid
    simp only [beq_iff_eq, hid, if_false]
  · intro s
    refine ⟨rfl, rfl, rfl, rfl, rfl, rfl, rfl, rfl, ?_, ?_, ?_, ?_, ?_, ?_⟩ <;>
      (intro hnone; simp only [mergeSignatureIntoSupplier, hnone])

/-- C10 witness: Signing the second of two suppliers leaves the first
untouched and merges the payload into the second. -/
theorem handleSignSupplier_targeted_witness :
    handleSignSupplier
      [{ id := "e1", coupleName := "נועה ויונתן", date := "2026-03-15", hall := "אולם",
         suppliers := some
           [{ id := "s1", role := "צילום", name := some "דנה", phone := none, hours := none,
              totalPayment := none, deposit := none, balance := none,
              paymentReceivedAmount := none, paymentReceivedHours := none,
              paymentReceivedDate := none, paymentReceivedName := none,
              paymentReceivedSignature := none, hasSigned := none },
            { id := "s2", role := "DJ", name := some "יואב", phone := none, hours := none,
              totalPayment := none, deposit := none, balance := none,
              paymentReceivedAmount := none, paymentReceivedHours := none,
              paymentReceivedDate := none, paymentReceivedName := none,
              paymentReceivedSignature := none, hasSigned := none }] }]
      "e1" "s2"
      { paymentReceivedAmount := none, paymentReceivedHours := none,
        paymentReceivedDate := some "2026-03-15", paymentReceivedName := some "מנהל אירוע",
        paymentReceivedSignature := some "חתימה", hasSigned := some true } =
      .ok
        [{ id := "s1", role := "צילום", name := some "דנה", phone := none, hours := none,
           totalPayment := none, deposit := none, balance := none,
           paymentReceivedAmount := none, paymentReceivedHours := none,
           paymentReceivedDate := none, paymentReceivedName := none,
           paymentReceivedSignature := none, hasSigned := none },
         { id := "s2", role := "DJ", name := some "יואב", phone := none, hours := none,
           totalPayment := none, deposit := none, balance := none,
           paymentReceivedAmount := none, paymentReceivedHours := none,
           paymentReceivedDate := some "2026-03-15", paymentReceivedName := some "מנהל אירוע",
           paymentReceivedSignature := some "חתימה", hasSigned := some true }] := by
  have h := (handleSignSupplier_targeted
    [{ id := "e1", coupleName := "נועה ויונתן", date := "2026-03-15", hall := "אולם",
       suppliers := some
         [{ id := "s1", role := "צילום", name := some "דנה", phone := none, hours := none,
            totalPayment := none, deposit := none, balance := none,
            paymentReceivedAmount := none, paymentReceivedHours := none,
            paymentReceivedDate := none, paymentReceivedName := none,
            paymentReceivedSignature := none, hasSigned := none },
          { id := "s2", role := "DJ", name := some "יואב", phone := none, hours := none,
            totalPayment := none, deposit := none, balance := none,
            paymentReceivedAmount := none, paymentReceivedHours := none,
            paymentReceivedDate := none, paymentReceivedName := none,
            paymentReceivedSignature := none, hasSigned := none }] }]
    "e1" "s2"
    { paymentReceivedAmount := none, paymentReceivedHours := none,
      paymentReceivedDate := some "2026-03-15", paymentReceivedName := some "מנהל אירוע",
      paymentReceivedSignature := some "חתימה", hasSigned := some true }).2.2.1
    { id := "e1", coupleName := "נועה ויונתן", date := "2026-03-15", hall := "אולם",
      suppliers := some
        [{ id := "s1", role := "צילום", name := some "דנה", phone := none, hours := none,
           totalPayment := none, deposit := none, balance := none,
           paymentReceivedAmount := none, paymentReceivedHours := none,
           paymentReceivedDate := none, paymentReceivedName := none,
           paymentReceivedSignature := none, hasSigned := none },
         { id := "s2", role := "DJ", name := some "יואב", phone := none, hours := none,
           totalPayment := none, deposit := none, balance := none,
           paymentReceivedAmount := none, paymentReceivedHours := none,
           paymentReceivedDate := none, paymentReceivedName := none,
           paymentReceivedSignature := none, hasSigned := none }] }
    [{ id := "s1", role := "צילום", name := some "דנה", phone := none, hours := none,
       totalPayment := none, deposit := none, balance := none,
       paymentReceivedAmount := none, paymentReceivedHours := none,
       paymentReceivedDate := none, paymentReceivedName := none,
       paymentReceivedSignature := none, hasSigned := none },
     { id := "s2", role := "DJ", name := some "יואב", phone := none, hours := none,
       totalPayment := none, deposit := none, balance := none,
       paymentReceivedAmount := none, paymentReceivedHours := none,
       paymentReceivedDate := none, paymentReceivedName := none,
       paymentReceivedSignature := none, hasSigned := none }]
    (by decide) rfl
  rw [h.1]
  rfl

/-- C5: Draft round-trip: reloading the editor with a stored draft
restores the draft's step index (clamped to the wizard's step range) and
merges the draft's field map over the baseline derived from the
authoritative record, draft values winning per key — in particular a
draft `coupleName` survives any change to the record. -/
theorem editor_draft_roundtrip :
    ∀ (numToString : ℚ → String) (freshId : String) (ev : Option EditorEventRecord)
      (d : QuestionnaireDraft) (df : String → Option String),
      (d.form = some df → d.currentStep = some 2 →
        ((loadEditorState numToString freshId ev (some d)).currentStep = 2 ∧
         (df "coupleName" = some "Noa & Yonatan" →
           (loadEditorState numToString freshId ev (some d)).form "coupleName" =
             "Noa & Yonatan") ∧
         (∀ key, (loadEditorState numToString freshId ev (some d)).form key =
           (df key).getD (createQuestionnaireFormState numToString ev key)))) ∧
      (0 ≤ (loadEditorState numToString freshId ev (some d)).currentStep ∧
       (loadEditorState numToString freshId ev (some d)).currentStep ≤ totalSteps - 1) := by
  intro numToString freshId ev d df
  constructor
  · intro hform hstep
    refine ⟨?_, ?_, ?_⟩
    · simp only [loadEditorState, hstep, totalSteps]
      rfl
    · intro hcouple
      simp only [loadEditorState, hform, hcouple, Option.getD_some]
    · intro key
      simp only [loadEditorState, hform]
  · constructor
    · simp only [loadEditorState]
      rcases d.currentStep with _ | n
      · simp
      · simp only [totalSteps]
        omega
    · simp only [loadEditorState]
      rcases d.currentStep with _ | n
      · simp [totalSteps]
      · simp only [totalSteps]
        omega

/-- C5 witness: A draft holding `coupleName` and step `2` restores both
over a changed record. -/
theorem editor_draft_roundtrip_witness :
    (loadEditorState (fun _ => "") "fresh"
      (some { fields := fun k => if k == "coupleName" then some (.str "שם אחר") else none,
              suppliers := none })
      (some { form := some (fun k => if k == "coupleName" then some "Noa & Yonatan" else none),
              suppliers := none, currentStep := some 2 })).currentStep = 2 ∧
    (loadEditorState (fun _ => "") "fresh"
      (some { fields := fun k => if k == "coupleName" then some (.str "שם אחר") else none,
              suppliers := none })
      (some { form := some (fun k => if k == "coupleName" then some "Noa & Yonatan" else none),
              suppliers := none, currentStep := some 2 })).form "coupleName" =
      "Noa & Yonatan" := by
  have h := (editor_draft_roundtrip (fun _ => "") "fresh"
    (some { fields := fun k => if k == "coupleName" then some (.str "שם אחר") else none,
            suppliers := none })
    { form := some (fun k => if k == "coupleName" then some "Noa & Yonatan" else none),
      suppliers := none, currentStep := some 2 }
    (fun k => if k == "coupleName" then some "Noa & Yonatan" else none)).1 rfl rfl
  exact ⟨h.1, h.2.1 rfl⟩

theorem charListLe_antisymm : ∀ (as bs : List Char),
    charListLe as bs = true → charListLe bs as = true → as = bs
  | [], [], _, _ => rfl
  | [], _ :: _, _, h2 => by simp [charListLe] at h2
  | _ :: _, [], h1, _ => by simp [charListLe] at h1
  | a :: as, b :: bs, h1, h2 => by
    rcases Nat.lt_trichotomy a.toNat b.toNat with h | h | h
    · rw [charListLe, if_neg (by omega), if_pos h] at h2
      cases h2
    · have hab : a = b := char_toNat_inj h
      subst hab
      rw [charListLe, if_neg (by omega), if_neg (by omega)] at h1
      rw [charListLe, if_neg (by omega), if_neg (by omega)] at h2
      rw [charListLe_antisymm as bs h1 h2]
    · rw [charListLe, if_neg (by omega), if_pos h] at h1
      cases h1

theorem strLe_antisymm : ∀ {a b : String}, strLe a b = true → strLe b a = true → a = b
  | ⟨da⟩, ⟨db⟩, h1, h2 => congrArg String.mk (charListLe_antisymm da db h1 h2)

theorem slotKey_date_inj {d₁ d₂ A : String} (h : d₁ ++ "-" ++ A = d₂ ++ "-" ++ A) :
    d₁ = d₂ := by
  cases d₁ with | mk l₁ => cases d₂ with | mk l₂ => cases A with | mk lA =>
  have hdata : (l₁ ++ ['-']) ++ lA = (l₂ ++ ['-']) ++ lA := congrArg String.data h
  have h1 : l₁ ++ ['-'] = l₂ ++ ['-'] := List.append_cancel_right hdata
  have h2 : l₁ = l₂ := List.append_cancel_right h1
  rw [h2]

theorem triggerStep_no_time {A st : String} {t : SchedulerTick} (h : t.currentTime ≠ A) :
    triggerStep A st t = (false, st) := by
  simp [triggerStep, h]

theorem triggerStep_dup {A st : String} {t : SchedulerTick} (h : t.currentTime = A)
    (h2 : st = slotKeyOf A t) : triggerStep A st t = (false, st) := by
  simp [triggerStep, h, h2]

theorem triggerStep_fire {A st : String} {t : SchedulerTick} (h : t.currentTime = A)
    (h2 : st ≠ slotKeyOf A t) : triggerStep A st t = (true, slotKeyOf A t) := by
  simp [triggerStep, h, h2]

theorem firedSlots_cons (A st : String) (t : SchedulerTick) (ts : List SchedulerTick) :
    firedSlots A st (t :: ts) =
      (if (triggerStep A st t).1 then
        slotKeyOf A t :: firedSlots A (triggerStep A st t).2 ts
       else firedSlots A (triggerStep A st t).2 ts) := rfl

theorem firedSlots_subset_slots : ∀ (ts : List SchedulerTick) (A st f : String),
    f ∈ firedSlots A st ts → ∃ t, t ∈ ts ∧ f = slotKeyOf A t := by
  intro ts
  induction ts with
  | nil => intro A st f h; simp [firedSlots] at h
  | cons t ts ih =>
    intro A st f h
    rw [firedSlots_cons] at h
    by_cases hf : (triggerStep A st t).1 = true
    · rw [if_pos hf] at h
      rcases List.mem_cons.mp h with h | h
      · exact ⟨t, List.mem_cons_self t ts, h⟩
      · obtain ⟨u, hu, he⟩ := ih A _ f h
        exact ⟨u, List.mem_cons_of_mem t hu, he⟩
    · rw [if_neg hf] at h
      obtain ⟨u, hu, he⟩ := ih A _ f h
      exact ⟨u, List.mem_cons_of_mem t hu, he⟩

theorem firedSlots_count_start_zero : ∀ (ts : List SchedulerTick) (A d : String),
    List.Pairwise (fun a b : SchedulerTick => strLe a.dateKey b.dateKey = true) ts →
    (∀ t ∈ ts, strLe d t.dateKey = true) →
    List.count (d ++ "-" ++ A) (firedSlots A (d ++ "-" ++ A) ts) = 0 := by
  intro ts
  induction ts with
  | nil => intro A d _ _; rfl
  | cons t ts ih =>
    intro A d hpw hle
    rw [firedSlots_cons]
    by_cases htime : t.currentTime = A
    · by_cases hdup : (d ++ "-" ++ A) = slotKeyOf A t
      · rw [triggerStep_dup htime hdup]
        simp only [Bool.false_eq_true, if_false]
        exact ih A d (List.pairwise_cons.mp hpw).2 (fun u hu => hle u (List.mem_cons_of_mem t hu))
      · rw [triggerStep_fire htime hdup]
        simp only [if_true]
        rw [List.count_cons]
        have hbeq : (slotKeyOf A t == (d ++ "-" ++ A)) = false := by
          simp only [beq_eq_false_iff_ne, ne_eq]
          exact fun hc => hdup hc.symm
        rw [hbeq]
        simp only [Bool.false_eq_true, if_false, Nat.add_zero]
        rw [List.count_eq_zero]
        intro hmem
        obtain ⟨u, hu, he⟩ := firedSlots_subset_slots ts A (slotKeyOf A t) (d ++ "-" ++ A) hmem
        have hud : d = u.dateKey := slotKey_date_inj he
        have hdt : d ≠ t.dateKey := by
          intro hcontra
          exact hdup (by rw [hcontra]; rfl)
        have htu : strLe t.dateKey u.dateKey = true := (List.pairwise_cons.mp hpw).1 u hu
        have hdtle : strLe d t.dateKey = true := hle t (List.mem_cons_self t ts)
        rw [← hud] at htu
        exact hdt (strLe_antisymm hdtle htu)
    · rw [triggerStep_no_time htime]
      simp only [Bool.false_eq_true, if_false]
      exact ih A d (List.pairwise_cons.mp hpw).2 (fun u hu => hle u (List.mem_cons_of_mem t hu))

/-- C3: Scheduler de-duplication: along any run of the one-minute timer
(ticks carrying nondecreasing wall-clock date keys) and from any initial
last-fired marker, the summary computation fires at most once per
distinct `(date, alert time)` slot. -/
theorem triggerDailyAlerts_at_most_once :
    ∀ (alertsTime lastSlot : String) (ts : List SchedulerTick) (S : String),
      List.Pairwise (fun a b : SchedulerTick => strLe a.dateKey b.dateKey = true) ts →
      List.count S (firedSlots alertsTime lastSlot ts) ≤ 1 := by
  intro A st ts
  induction ts generalizing st with
  | nil => intro S _; simp [firedSlots]
  | cons t ts ih =>
    intro S hpw
    rw [firedSlots_cons]
    by_cases htime : t.currentTime = A
    · by_cases hdup : st = slotKeyOf A t
      · rw [triggerStep_dup htime hdup]
        simp only [Bool.false_eq_true, if_false]
        exact ih st S (List.pairwise_cons.mp hpw).2
      · rw [triggerStep_fire htime hdup]
        simp only [if_true]
        rw [List.count_cons]
        by_cases hS : S = slotKeyOf A t
        · subst hS
          rw [if_pos (by simp)]
          have hzero : List.count (slotKeyOf A t) (firedSlots A (slotKeyOf A t) ts) = 0 := by
            have := firedSlots_count_start_zero ts A t.dateKey (List.pairwise_cons.mp hpw).2
              (fun u hu => (List.pairwise_cons.mp hpw).1 u hu)
            exact this
          rw [hzero]
        · rw [if_neg (by simp only [beq_iff_eq]; exact fun hc => hS hc.symm)]
          rw [Nat.add_zero]
          exact ih (slotKeyOf A t) S (List.pairwise_cons.mp hpw).2
    · rw [triggerStep_no_time htime]
      simp only [Bool.false_eq_true, if_false]
      exact ih st S (List.pairwise_cons.mp hpw).2

/-- C3 witness: Three timer ticks landing on the same minute fire the
slot at most once. -/
theorem triggerDailyAlerts_at_most_once_witness :
    List.count "2026-03-15-08:00"
      (firedSlots "08:00" ""
        [⟨"2026-03-15", "08:00"⟩, ⟨"2026-03-15", "08:00"⟩, ⟨"2026-03-15", "08:00"⟩]) ≤ 1 :=
  triggerDailyAlerts_at_most_once "08:00" ""
    [⟨"2026-03-15", "08:00"⟩, ⟨"2026-03-15", "08:00"⟩, ⟨"2026-03-15", "08:00"⟩]
    "2026-03-15-08:00" (by decide)

/-- C4: Agenda summary: when both lists filtered to today's local date
are empty no summary is produced; and for two meetings today at `09:00`
and `14:00` (supplied out of order) plus one event today, the summary
counts two meetings and one event and its phone message lists the
meetings in ascending time order followed by the event. -/
theorem buildAgendaSummary_daily :
    (∀ (fb : String → String) (ms : List MeetingRecord) (es : List EventRecord)
        (today label : String),
      ms.filter (fun m => toDateKey fb m.date == today) = [] →
      es.filter (fun e => toDateKey fb e.date == today) = [] →
      buildAgendaSummary fb ms es today label = none) ∧
    buildAgendaSummary (fun _ => "")
      [{ id := "m1", coupleName := "דנה ויואב", location := "תל אביב",
         date := "2026-03-15", time := "14:00" },
       { id := "m2", coupleName := "נועה ויונתן", location := "חיפה",
         date := "2026-03-15", time := "09:00" }]
      [{ id := "e1", coupleName := "רות ואורי", date := "2026-03-15",
         hall := "אולם הגן", suppliers := none }]
      "2026-03-15" "08:00" =
      some { title := "תזכורת יומית 08:00",
             notificationBody := "להיום: 2 פגישות, 1 אירועים",
             phoneMessage := "תזכורת יומית 08:00\nלהיום: 2 פגישות, 1 אירועים\nפגישות היום:\n• 09:00 | נועה ויונתן | חיפה\n• 14:00 | דנה ויואב | תל אביב\nאירועים היום:\n• רות ואורי | אולם הגן",
             meetingsCount := 2, eventsCount := 1 } := by
  constructor
  · intro fb ms es today label h1 h2
    simp only [buildAgendaSummary, h1, h2, sortByTime, List.isEmpty_nil, Bool.and_self, if_true]
  · decide

/-- C7 witness: the malformed input `"9:5"` is invalid after trimming and
maps to the default. -/
theorem normalizeAlertTime_valid_or_default_witness :
    normalizeAlertTime (some "9:5") = "08:00" :=
  normalizeAlertTime_valid_or_default.2.2.2.2.2 (some "9:5") (by decide)

/-- C4 witness: with no meeting and no event dated today, no summary is
produced. -/
theorem buildAgendaSummary_daily_witness :
    buildAgendaSummary (fun _ => "") [] [] "2026-03-15" "08:00" = none :=
  buildAgendaSummary_daily.1 (fun _ => "") [] [] "2026-03-15" "08:00" rfl rfl

end Webose
